import Mathlib

/-!
# Pipeline control service of `gocd/pipeline.go`

A shallow embedding of `src/gocd/pipeline.go` and the properties of its
pagination stub builder, its stage accessors and its seven service calls.

Conventions of the embedding.

* Go `string` is `String` (Go strings that are not valid UTF-8 are outside the
  embedding), Go `int` is `Int` (no arithmetic is performed on it here, so the
  64-bit range plays no role), a Go slice is a `List`, a Go pointer `*T` is an
  `Option T` (`none` is `nil`).
* `fmt.Sprintf` is embedded for the directives the file uses (see `doPrintf`).
* The transport client (`pgs.client.getAction` / `postAction`), the request
  descriptor `APIClientRequest`, the response metadata `APIResponse`, the type
  `Stage` and the constants `apiV4` and `responseTypeJSON` are declared in
  other files of the package; they enter as parameters or as records holding
  exactly the fields `pipeline.go` touches.
-/

namespace gocd

/-! ## `fmt.Sprintf` -/

/-- An operand handed to `fmt.Sprintf`: `pipeline.go` only passes `string` and
`int` operands. -/
inductive Operand where
  | str (s : String)
  | int (n : Int)
  deriving DecidableEq, Repr

/-- The result of `reflect.TypeOf(arg).String()` for an operand. -/
def Operand.typeName : Operand → String
  | .str _ => "string"
  | .int _ => "int"

/-- Base-10 rendering of a Go `int` (`fmt.fmtInteger` with base 10 and no
flags): the digits of the magnitude, preceded by `-` when negative. -/
def fmtInteger (n : Int) : String :=
  if n < 0 then "-" ++ Nat.repr n.natAbs else Nat.repr n.natAbs

/-- The operand printed under the verb `%v` without flags. -/
def Operand.plain : Operand → List Char
  | .str s => s.toList
  | .int n => (fmtInteger n).toList

/-- The text `%!verb(type=value)` that `fmt` writes (`pp.badVerb`) when the
verb does not apply to the operand. -/
def badVerb (verb : Char) (a : Operand) : List Char :=
  "%!".toList ++ [verb] ++ "(".toList ++ a.typeName.toList ++ "=".toList ++ a.plain ++ ")".toList

/-- The text `%!verb(MISSING)` that `fmt` writes (`pp.missingArg`) when no
operand is left for a verb. -/
def missingArg (verb : Char) : List Char :=
  "%!".toList ++ [verb] ++ "(MISSING)".toList

/-- One operand under one verb (`pp.printArg`), for directives without flags,
width or precision.  `%T` prints the type, `%v` the plain value, `%s` applies
to strings and `%d` to integers; any other verb is reported with `badVerb`.
(The verbs `q`, `x`, `X` for both kinds and `b`, `o`, `O`, `c`, `U` for
integers are not embedded: `pipeline.go` uses none of them.) -/
def printArg (a : Operand) (verb : Char) : List Char :=
  if verb = 'T' then a.typeName.toList
  else match a with
    | .str s => if verb = 'v' ∨ verb = 's' then s.toList else badVerb verb a
    | .int n => if verb = 'v' ∨ verb = 'd' then (fmtInteger n).toList else badVerb verb a

/-- The items `type=value` of the operands no verb consumed, separated by
`, `. -/
def extraItems : List Operand → List Char
  | [] => []
  | [a] => a.typeName.toList ++ "=".toList ++ a.plain
  | a :: b :: rest =>
    a.typeName.toList ++ "=".toList ++ a.plain ++ ", ".toList ++ extraItems (b :: rest)

/-- The trailer `%!(EXTRA type=value, ...)` appended when operands are left
over at the end of the format; nothing when all were consumed. -/
def extraOperands : List Operand → List Char
  | [] => []
  | a :: rest => "%!(EXTRA ".toList ++ extraItems (a :: rest) ++ ")".toList

/-- The formatting loop of `fmt` (`pp.doPrintf`) over the characters of the
format, for directives made of `%` directly followed by the verb: literal text
is copied, `%%` writes a percent sign and consumes no operand, a verb consumes
the next operand (or reports it missing), a lone `%` at the end writes
`%!(NOVERB)`, and operands left at the end are listed by `extraOperands`.
Flags, width, precision and explicit operand indexes are not embedded. -/
def doPrintf : List Char → List Operand → List Char
  | [], args => extraOperands args
  | c :: rest, args =>
    if c = '%' then
      match rest, args with
      | [], args => "%!(NOVERB)".toList ++ extraOperands args
      | verb :: rest', [] =>
        if verb = '%' then '%' :: doPrintf rest' []
        else missingArg verb ++ doPrintf rest' []
      | verb :: rest', a :: args' =>
        if verb = '%' then '%' :: doPrintf rest' (a :: args')
        else printArg a verb ++ doPrintf rest' args'
    else c :: doPrintf rest args

/-- The call `fmt.Sprintf(format, a...)`. -/
def Sprintf (format : String) (a : List Operand) : String :=
  String.mk (doPrintf format.toList a)

/-! ## The pagination stub builder -/

/-- The method `buildPaginatedStub` (lines 216-222): the receiver is unused. -/
def buildPaginatedStub (format : String) (name : String) (offset : Int) : String :=
  let stub := Sprintf format [.str name]
  if offset > 0 then Sprintf "%s/%d" [.str stub, .int offset] else stub

/-! ## Domain model (lines 19-133) -/

/-- The struct `MaterialFilter`. -/
structure MaterialFilter where
  Ignore : List String := []
  deriving DecidableEq, Repr

/-- The struct `MaterialAttributes`; `Filter` is a pointer. -/
structure MaterialAttributes where
  URL : String := ""
  Destination : String := ""
  Filter : Option MaterialFilter := none
  InvertFilter : Bool := false
  Name : String := ""
  AutoUpdate : Bool := false
  Branch : String := ""
  SubmoduleFolder : String := ""
  ShallowClone : Bool := false
  deriving DecidableEq, Repr

/-- The struct `Material` (its field `Type` is spelled `Type_`). -/
structure Material where
  Type_ : String := ""
  Fingerprint : String := ""
  Description : String := ""
  Attributes : MaterialAttributes := {}
  deriving DecidableEq, Repr

/-- The struct `Pipeline`.  `Stage` stands for the values of the Go type
`*Stage`, which `pipeline.go` stores and returns without looking inside. -/
structure Pipeline (Stage : Type) where
  Name : String := ""
  LabelTemplate : String := ""
  EnablePipelineLocking : Bool := false
  Template : String := ""
  Materials : List Material := []
  Label : String := ""
  Stages : List Stage := []
  Version : String := ""
  deriving DecidableEq, Repr

/-- The struct `PipelineRequest`, the envelope of a creation call; the field
`Pipeline` is a pointer. -/
structure PipelineRequest (Stage : Type) where
  Group : String := ""
  Pipeline : Option (Pipeline Stage) := none
  deriving DecidableEq, Repr

/-- The struct `Modification`. -/
structure Modification where
  EmailAddress : String := ""
  ID : Int := 0
  ModifiedTime : Int := 0
  UserName : String := ""
  Comment : String := ""
  Revision : String := ""
  deriving DecidableEq, Repr

/-- The anonymous struct of the field `Material` of `MaterialRevision`. -/
structure MaterialRevisionMaterial where
  Description : String := ""
  Fingerprint : String := ""
  Type_ : String := ""
  ID : Int := 0
  deriving DecidableEq, Repr

/-- The struct `MaterialRevision`. -/
structure MaterialRevision where
  Modifications : List Modification := []
  Material : MaterialRevisionMaterial := {}
  Changed : Bool := false
  deriving DecidableEq, Repr

/-- The struct `BuildCause`. -/
structure BuildCause where
  Approver : String := ""
  MaterialRevisions : List MaterialRevision := []
  TriggerForced : Bool := false
  TriggerMessage : String := ""
  deriving DecidableEq, Repr

/-- The struct `PipelineInstance`. -/
structure PipelineInstance (Stage : Type) where
  BuildCause : BuildCause := {}
  CanRun : Bool := false
  Name : String := ""
  NaturalOrder : Int := 0
  Comment : String := ""
  Stages : List Stage := []
  deriving DecidableEq, Repr

/-- The struct `PipelineHistory`: a slice of pointers to instances. -/
structure PipelineHistory (Stage : Type) where
  Pipelines : List (Option (PipelineInstance Stage)) := []
  deriving DecidableEq, Repr

/-- The struct `PipelineStatus`. -/
structure PipelineStatus where
  Locked : Bool := false
  Paused : Bool := false
  Schedulable : Bool := false
  deriving DecidableEq, Repr

/-! ## Stage accessors of `Pipeline` (lines 37-55)

The methods have a pointer receiver; a method that assigns to the receiver
returns the pipeline after the call. -/

/-- The method `GetStages` (lines 37-40). -/
def Pipeline.GetStages {Stage : Type} (p : Pipeline Stage) : List Stage :=
  p.Stages

/-- The method `GetName` (lines 42-45). -/
def Pipeline.GetName {Stage : Type} (p : Pipeline Stage) : String :=
  p.Name

/-- The method `SetStages` (lines 47-50): `p.Stages = stages`. -/
def Pipeline.SetStages {Stage : Type} (p : Pipeline Stage) (stages : List Stage) : Pipeline Stage :=
  { p with Stages := stages }

/-- The method `AddStage` (lines 52-55): `p.Stages = append(p.Stages, stage)`. -/
def Pipeline.AddStage {Stage : Type} (p : Pipeline Stage) (stage : Stage) : Pipeline Stage :=
  { p with Stages := p.Stages ++ [stage] }

/-! ## The transport client, as `pipeline.go` uses it -/

/-- A Go `error` value that is not `nil`, identified by its text. -/
structure Error where
  text : String
  deriving DecidableEq, Repr

/-- The part of `http.Response` that `pipeline.go` reads. -/
structure HTTPResponse where
  StatusCode : Int
  deriving DecidableEq, Repr

/-- The response metadata `APIResponse`, declared outside `pipeline.go`: the
file reads `resp.HTTP.StatusCode` through the pointer `resp`, and `HTTP` is
itself a pointer to the response of the Go standard library. -/
structure APIResponse where
  HTTP : Option HTTPResponse
  deriving DecidableEq, Repr

/-- What the field `ResponseBody` of a request points to: nothing (the field
is left `nil`) or a variable of one of the four result types. -/
inductive ResponseKind where
  | none
  | pipelineStatus
  | pipeline
  | pipelineInstance
  | pipelineHistory
  deriving DecidableEq, Repr

/-- The content of the variable `ResponseBody` points to. -/
@[reducible] def ResponseKind.cell (Stage : Type) : ResponseKind → Type
  | .none => Unit
  | .pipelineStatus => PipelineStatus
  | .pipeline => Pipeline Stage
  | .pipelineInstance => PipelineInstance Stage
  | .pipelineHistory => PipelineHistory Stage

/-- The request descriptor `APIClientRequest`, declared outside `pipeline.go`,
with the fields the file sets; a field the file leaves out has its zero value.
`Headers` lists the entries of the Go map, `RequestBody` is `nil` or the
creation envelope (the only value the file puts there), and `ResponseBody`
holds the current content of the variable it points to. -/
structure APIClientRequest (Stage : Type) (k : ResponseKind) where
  Path : String := ""
  APIVersion : String := ""
  ResponseType : String := ""
  Headers : List (String × String) := []
  RequestBody : Option (PipelineRequest Stage) := none
  ResponseBody : k.cell Stage

/-- What a transport call leaves behind: the content of the variable behind
`ResponseBody` after the call, the response metadata pointer and the error.
(The first result of `getAction` and `postAction` is discarded by every caller
in the file and is not kept.) -/
structure Outcome (Stage : Type) (k : ResponseKind) where
  body : k.cell Stage
  resp : Option APIResponse
  err : Option Error

/-- The transport client behind `pgs.client`, declared outside `pipeline.go`:
its two operations take the context and the request descriptor, act on the
state `σ` of the outside world and give an outcome. -/
structure Client (Stage Ctx σ : Type) where
  getAction : Ctx → (k : ResponseKind) → APIClientRequest Stage k → σ → Outcome Stage k × σ
  postAction : Ctx → (k : ResponseKind) → APIClientRequest Stage k → σ → Outcome Stage k × σ

/-- The type `PipelinesService` (line 17), a `service`: it holds the client. -/
structure PipelinesService (Stage Ctx σ : Type) where
  client : Client Stage Ctx σ

/-- The three results of a service method. -/
structure Returned (α : Type) where
  value : α
  resp : Option APIResponse
  err : Option Error
  deriving DecidableEq, Repr

/-- A run-time fault of the Go program. -/
inductive Panic where
  | nilPointerDereference
  deriving DecidableEq, Repr

/-! ## The service methods (lines 135-214) -/

section Service

variable {Stage Ctx σ : Type}

/-- The method `GetStatus` (lines 135-144); `offset` is unused. -/
def PipelinesService.GetStatus (pgs : PipelinesService Stage Ctx σ) (ctx : Ctx) (name : String)
    (_offset : Int) (s : σ) : Returned PipelineStatus × σ :=
  let ps : PipelineStatus := {}
  let r := pgs.client.getAction ctx .pipelineStatus
    { Path := Sprintf "pipelines/%s/status" [.str name], ResponseBody := ps } s
  ({ value := r.1.body, resp := r.1.resp, err := r.1.err }, r.2)

/-- The method `pipelineAction` (lines 203-214).  The expression
`resp.HTTP.StatusCode` reads through two pointers and faults when either is
`nil`; the call to the transport has happened by then. -/
def PipelinesService.pipelineAction (responseTypeJSON : String)
    (pgs : PipelinesService Stage Ctx σ) (ctx : Ctx) (name : String) (action : String) (s : σ) :
    Except Panic (Returned Bool) × σ :=
  let r := pgs.client.postAction ctx .none
    { Path := Sprintf "pipelines/%s/%s" [.str name, .str action],
      ResponseType := responseTypeJSON,
      Headers := [("Confirm", "true")],
      ResponseBody := () } s
  match r.1.resp with
  | none => (.error .nilPointerDereference, r.2)
  | some resp =>
    match resp.HTTP with
    | none => (.error .nilPointerDereference, r.2)
    | some http =>
      (.ok { value := decide (http.StatusCode = 200), resp := some resp, err := r.1.err }, r.2)

/-- The method `Pause` (lines 146-149). -/
def PipelinesService.Pause (responseTypeJSON : String) (pgs : PipelinesService Stage Ctx σ)
    (ctx : Ctx) (name : String) (s : σ) : Except Panic (Returned Bool) × σ :=
  pgs.pipelineAction responseTypeJSON ctx name "pause" s

/-- The method `Unpause` (lines 151-154). -/
def PipelinesService.Unpause (responseTypeJSON : String) (pgs : PipelinesService Stage Ctx σ)
    (ctx : Ctx) (name : String) (s : σ) : Except Panic (Returned Bool) × σ :=
  pgs.pipelineAction responseTypeJSON ctx name "unpause" s

/-- The method `ReleaseLock` (lines 156-159). -/
def PipelinesService.ReleaseLock (responseTypeJSON : String) (pgs : PipelinesService Stage Ctx σ)
    (ctx : Ctx) (name : String) (s : σ) : Except Panic (Returned Bool) × σ :=
  pgs.pipelineAction responseTypeJSON ctx name "releaseLock" s

/-- The method `Create` (lines 161-175); `p` is a pointer. -/
def PipelinesService.Create (apiV4 : String) (pgs : PipelinesService Stage Ctx σ) (ctx : Ctx)
    (p : Option (Pipeline Stage)) (group : String) (s : σ) : Returned (Pipeline Stage) × σ :=
  let pt : Pipeline Stage := {}
  let r := pgs.client.postAction ctx .pipeline
    { Path := "admin/pipelines",
      APIVersion := apiV4,
      RequestBody := some { Group := group, Pipeline := p },
      ResponseBody := pt } s
  ({ value := r.1.body, resp := r.1.resp, err := r.1.err }, r.2)

/-- The method `GetInstance` (lines 177-188). -/
def PipelinesService.GetInstance (pgs : PipelinesService Stage Ctx σ) (ctx : Ctx) (name : String)
    (offset : Int) (s : σ) : Returned (PipelineInstance Stage) × σ :=
  let stub := buildPaginatedStub "admin/pipelines/%s/instance" name offset
  let pt : PipelineInstance Stage := {}
  let r := pgs.client.getAction ctx .pipelineInstance { Path := stub, ResponseBody := pt } s
  ({ value := r.1.body, resp := r.1.resp, err := r.1.err }, r.2)

/-- The method `GetHistory` (lines 190-201). -/
def PipelinesService.GetHistory (pgs : PipelinesService Stage Ctx σ) (ctx : Ctx) (name : String)
    (offset : Int) (s : σ) : Returned (PipelineHistory Stage) × σ :=
  let stub := buildPaginatedStub "pipelines/%s/history" name offset
  let pt : PipelineHistory Stage := {}
  let r := pgs.client.getAction ctx .pipelineHistory { Path := stub, ResponseBody := pt } s
  ({ value := r.1.body, resp := r.1.resp, err := r.1.err }, r.2)

end Service

/-! ## Observing the calls made to the transport -/

/-- Which operation of the transport was invoked. -/
inductive Method where
  | GET
  | POST
  deriving DecidableEq, Repr

/-- One invocation of the transport: the operation and the request descriptor
it was handed. -/
structure Call (Stage : Type) where
  method : Method
  kind : ResponseKind
  request : APIClientRequest Stage kind

/-- The client `c` with a journal: every invocation behaves as with `c` and is
appended to the list of calls kept next to the state. -/
def Client.traced {Stage Ctx σ : Type} (c : Client Stage Ctx σ) :
    Client Stage Ctx (σ × List (Call Stage)) where
  getAction ctx k req st :=
    let r := c.getAction ctx k req st.1
    (r.1, (r.2, st.2 ++ [⟨.GET, k, req⟩]))
  postAction ctx k req st :=
    let r := c.postAction ctx k req st.1
    (r.1, (r.2, st.2 ++ [⟨.POST, k, req⟩]))

/-- The service `pgs` over the journalled client. -/
def PipelinesService.traced {Stage Ctx σ : Type} (pgs : PipelinesService Stage Ctx σ) :
    PipelinesService Stage Ctx (σ × List (Call Stage)) :=
  { client := pgs.client.traced }

/-- The outcome the client gives for a recorded call from state `s`. -/
def Client.answer {Stage Ctx σ : Type} (c : Client Stage Ctx σ) (ctx : Ctx) (call : Call Stage)
    (s : σ) : Outcome Stage call.kind × σ :=
  match call.method with
  | .GET => c.getAction ctx call.kind call.request s
  | .POST => c.postAction ctx call.kind call.request s

/-! ## Concrete transports -/

/-- A transport that answers every call with the same response metadata and
error, leaves the variable behind `ResponseBody` untouched and counts the
calls in its state. -/
def constClient (Stage : Type) (resp : Option APIResponse) (err : Option Error) :
    Client Stage Unit Nat where
  getAction _ _ req n := ({ body := req.ResponseBody, resp := resp, err := err }, n + 1)
  postAction _ _ req n := ({ body := req.ResponseBody, resp := resp, err := err }, n + 1)

/-- A transport whose creation call stores the server's rendering of the
pipeline (here with a version assigned) in the variable behind
`ResponseBody`. -/
def versioningClient : Client Nat Unit Nat where
  getAction _ _ req n := ({ body := req.ResponseBody, resp := none, err := none }, n + 1)
  postAction _ k req n :=
    match k, req with
    | .pipeline, req =>
      ({ body := { Name := (req.RequestBody.bind (·.Pipeline)).elim "" (·.Name), Version := "1" },
         resp := some ⟨some ⟨200⟩⟩, err := none }, n + 1)
    | _, req => ({ body := req.ResponseBody, resp := some ⟨some ⟨200⟩⟩, err := none }, n + 1)

/-! ## Facts about the formatter -/

theorem Sprintf_s_slash_d (stub : String) (n : Int) :
    Sprintf "%s/%d" [.str stub, .int n] = stub ++ "/" ++ fmtInteger n := by
  apply String.ext
  simp [Sprintf, doPrintf, printArg, extraOperands]

theorem Sprintf_pipelines_s_s (name action : String) :
    Sprintf "pipelines/%s/%s" [.str name, .str action] = "pipelines/" ++ name ++ "/" ++ action := by
  apply String.ext
  simp [Sprintf, doPrintf, printArg, extraOperands]

theorem fmtInteger_pos (n : Int) (h : 0 < n) : fmtInteger n = Nat.repr n.toNat := by
  have : ¬ n < 0 := by omega
  simp [fmtInteger, this]
  congr 1
  omega

theorem doPrintf_literal (pre rest : List Char) (args : List Operand) (h : '%' ∉ pre) :
    doPrintf (pre ++ rest) args = pre ++ doPrintf rest args := by
  induction pre with
  | nil => rfl
  | cons c cs ih =>
    have hc : ¬ c = '%' := fun e => h (by simp [e])
    have hcs : '%' ∉ cs := fun e => h (by simp [e])
    rw [List.cons_append, doPrintf.eq_def]
    simp [hc, ih hcs]

/-- A template with the single directive `%s` between two texts free of `%`
is formatted by putting the name in the place of the directive. -/
theorem Sprintf_single_s (pre post name : String) (hpre : '%' ∉ pre.toList)
    (hpost : '%' ∉ post.toList) :
    Sprintf (pre ++ "%s" ++ post) [.str name] = pre ++ name ++ post := by
  apply String.ext
  have h0 := doPrintf_literal post.data [] [] (by simpa using hpost)
  have h := doPrintf_literal pre.data ('%' :: 's' :: post.data) [.str name] (by simpa using hpre)
  simp [Sprintf] at h h0 ⊢
  rw [h]
  simp [doPrintf, printArg, extraOperands] at h0 ⊢
  exact h0

theorem buildPaginatedStub_history_page :
    buildPaginatedStub "pipelines/%s/history" "build-pipeline" 10 =
      "pipelines/build-pipeline/history/10" := by
  decide

/-- The formatter on a wrong verb, a verb without operand and `%%`. -/
theorem Sprintf_reports_mismatches :
    Sprintf "a%%b%d%s%z" [.str "x", .int (-3)] = "a%b%!d(string=x)%!s(int=-3)%!z(MISSING)" := by
  decide

/-- The formatter on a template without directive: the name is reported as an
operand left over. -/
theorem Sprintf_reports_extra :
    Sprintf "abc" [.str "x", .int (-3)] = "abc%!(EXTRA string=x, int=-3)" := by
  decide

/-- Against a transport answering HTTP 200 without error, pausing
`build-pipeline` returns true, the response and a nil error. -/
theorem Pause_status_200 :
    (⟨constClient Nat (some ⟨some ⟨200⟩⟩) none⟩ : PipelinesService Nat Unit Nat).Pause
      "json" () "build-pipeline" 0 =
      (.ok { value := true, resp := some ⟨some ⟨200⟩⟩, err := none }, 1) := by
  rfl

/-- Whatever the transport, `pipelineAction` faults when the call comes back
with a nil response pointer. -/
theorem pipelineAction_faults_of_nil_response {Stage Ctx σ : Type} (responseTypeJSON : String)
    (pgs : PipelinesService Stage Ctx σ) (ctx : Ctx) (name action : String) (s : σ)
    (h : (pgs.client.postAction ctx .none
      { Path := "pipelines/" ++ name ++ "/" ++ action,
        ResponseType := responseTypeJSON,
        Headers := [("Confirm", "true")],
        ResponseBody := () } s).1.resp = none) :
    (pgs.pipelineAction responseTypeJSON ctx name action s).1 = .error .nilPointerDereference := by
  simp only [PipelinesService.pipelineAction, Sprintf_pipelines_s_s, h]

/-! ## The claims -/

section Claims

variable {Stage Ctx σ : Type}

/-- Claim C1: whenever the transport answers the call of `pipelineAction` with
a response carrying status code `c`, the method returns, its response is that
response, its error is the transport's error, and its boolean is true if and
only if `c = 200`; the codes 201, 202, 204, 404 and 500 give false, a transport
that reports no error gives a nil error, and `Pause`, `Unpause` and
`ReleaseLock` return the same for their action. -/
theorem pipelineAction_true_iff_status_200 (responseTypeJSON : String)
    (pgs : PipelinesService Stage Ctx σ) (ctx : Ctx) (name action : String) (s s' : σ)
    (o : Outcome Stage .none) (resp : APIResponse) (http : HTTPResponse)
    (hcall : pgs.client.postAction ctx .none
      { Path := "pipelines/" ++ name ++ "/" ++ action,
        ResponseType := responseTypeJSON,
        Headers := [("Confirm", "true")],
        ResponseBody := () } s = (o, s'))
    (hresp : o.resp = some resp) (hhttp : resp.HTTP = some http) :
    ∃ ret : Returned Bool,
      pgs.pipelineAction responseTypeJSON ctx name action s = (.ok ret, s') ∧
      ret.resp = some resp ∧ ret.err = o.err ∧
      (ret.value = true ↔ http.StatusCode = 200) ∧
      (http.StatusCode ∈ [201, 202, 204, 404, 500] → ret.value = false) ∧
      (o.err = none → ret.err = none) ∧
      (action = "pause" → pgs.Pause responseTypeJSON ctx name s = (.ok ret, s')) ∧
      (action = "unpause" → pgs.Unpause responseTypeJSON ctx name s = (.ok ret, s')) ∧
      (action = "releaseLock" → pgs.ReleaseLock responseTypeJSON ctx name s = (.ok ret, s')) := by
  have hrun : pgs.pipelineAction responseTypeJSON ctx name action s =
      (.ok { value := decide (http.StatusCode = 200), resp := some resp, err := o.err }, s') := by
    simp only [PipelinesService.pipelineAction, Sprintf_pipelines_s_s, hcall, hresp, hhttp]
  refine ⟨_, hrun, rfl, rfl, by simp, ?_, fun h => h, ?_, ?_, ?_⟩
  · intro hc
    simp only [List.mem_cons, List.mem_singleton, List.not_mem_nil, or_false] at hc
    simp only [decide_eq_false_iff_not]
    omega
  · intro h; subst h; exact hrun
  · intro h; subst h; exact hrun
  · intro h; subst h; exact hrun

/-- Witness for C1: against a transport answering HTTP 202 without error,
pausing `build-pipeline` returns false, the response and a nil error. -/
theorem pipelineAction_true_iff_status_200_witness :
    ∃ ret : Returned Bool,
      (⟨constClient Nat (some ⟨some ⟨202⟩⟩) none⟩ : PipelinesService Nat Unit Nat).pipelineAction
        "json" () "build-pipeline" "pause" 0 = (.ok ret, 1) ∧
      ret.resp = some ⟨some ⟨202⟩⟩ ∧ ret.err = none ∧
      (ret.value = true ↔ (202 : Int) = 200) ∧
      ((202 : Int) ∈ [201, 202, 204, 404, 500] → ret.value = false) ∧
      ((none : Option Error) = none → ret.err = none) ∧
      ("pause" = "pause" →
        (⟨constClient Nat (some ⟨some ⟨202⟩⟩) none⟩ : PipelinesService Nat Unit Nat).Pause
          "json" () "build-pipeline" 0 = (.ok ret, 1)) ∧
      ("pause" = "unpause" →
        (⟨constClient Nat (some ⟨some ⟨202⟩⟩) none⟩ : PipelinesService Nat Unit Nat).Unpause
          "json" () "build-pipeline" 0 = (.ok ret, 1)) ∧
      ("pause" = "releaseLock" →
        (⟨constClient Nat (some ⟨some ⟨202⟩⟩) none⟩ : PipelinesService Nat Unit Nat).ReleaseLock
          "json" () "build-pipeline" 0 = (.ok ret, 1)) :=
  pipelineAction_true_iff_status_200 "json" ⟨constClient Nat (some ⟨some ⟨202⟩⟩) none⟩ ()
    "build-pipeline" "pause" 0 1 ⟨(), some ⟨some ⟨202⟩⟩, none⟩ ⟨some ⟨202⟩⟩ ⟨202⟩ rfl rfl rfl

/-- Claim C2: for an offset that is zero or negative, `buildPaginatedStub`
returns the template formatted with the name and nothing more, which is also
its result for offset 0; the history template with `foo` and offset 0 gives
`pipelines/foo/history`. -/
theorem buildPaginatedStub_nonpositive (format name : String) (offset : Int) (h : offset ≤ 0) :
    buildPaginatedStub format name offset = Sprintf format [.str name] ∧
    buildPaginatedStub format name offset = buildPaginatedStub format name 0 ∧
    buildPaginatedStub "pipelines/%s/history" "foo" 0 = "pipelines/foo/history" := by
  have hn : ¬ offset > 0 := by omega
  refine ⟨by simp [buildPaginatedStub, hn], by simp [buildPaginatedStub, hn], by decide⟩

/-- Witness for C2: offset `-3` on the history template. -/
theorem buildPaginatedStub_nonpositive_witness :
    (-3 : Int) ≤ 0 ∧
    buildPaginatedStub "pipelines/%s/history" "foo" (-3) =
      Sprintf "pipelines/%s/history" [.str "foo"] ∧
    buildPaginatedStub "pipelines/%s/history" "foo" (-3) =
      buildPaginatedStub "pipelines/%s/history" "foo" 0 ∧
    buildPaginatedStub "pipelines/%s/history" "foo" 0 = "pipelines/foo/history" :=
  ⟨by decide, buildPaginatedStub_nonpositive "pipelines/%s/history" "foo" (-3) (by decide)⟩

/-- Claim C3: for a positive offset, `buildPaginatedStub` returns the template
formatted with the name, then `/`, then the decimal digits of the offset; the
history template with `foo` and offset 5 gives `pipelines/foo/history/5`. -/
theorem buildPaginatedStub_positive (format name : String) (offset : Int) (h : 0 < offset) :
    buildPaginatedStub format name offset =
      Sprintf format [.str name] ++ "/" ++ Nat.repr offset.toNat ∧
    buildPaginatedStub "pipelines/%s/history" "foo" 5 = "pipelines/foo/history/5" := by
  have hp : offset > 0 := h
  refine ⟨?_, by decide⟩
  simp only [buildPaginatedStub, hp, if_true, Sprintf_s_slash_d, fmtInteger_pos offset h]

/-- Witness for C3: offset 10 on the history template. -/
theorem buildPaginatedStub_positive_witness :
    (0 : Int) < 10 ∧
    buildPaginatedStub "pipelines/%s/history" "build-pipeline" 10 =
      Sprintf "pipelines/%s/history" [.str "build-pipeline"] ++ "/" ++ Nat.repr (10 : Int).toNat ∧
    buildPaginatedStub "pipelines/%s/history" "foo" 5 = "pipelines/foo/history/5" :=
  ⟨by decide, buildPaginatedStub_positive "pipelines/%s/history" "build-pipeline" 10 (by decide)⟩

/-- Claim C4: after `AddStage s` the stages are the former stages followed by
`s`: one more element, `s` last, and the former stages first, in their order. -/
theorem AddStage_appends (p : Pipeline Stage) (s : Stage) :
    (p.AddStage s).GetStages = p.GetStages ++ [s] ∧
    (p.AddStage s).GetStages.length = p.GetStages.length + 1 ∧
    (p.AddStage s).GetStages.getLast? = some s ∧
    (p.AddStage s).GetStages.take p.GetStages.length = p.GetStages ∧
    (∀ i, i < p.GetStages.length → (p.AddStage s).GetStages[i]? = p.GetStages[i]?) := by
  refine ⟨rfl, by simp [Pipeline.AddStage, Pipeline.GetStages], by
    simp [Pipeline.AddStage, Pipeline.GetStages], by
    simp [Pipeline.AddStage, Pipeline.GetStages], ?_⟩
  intro i hi
  simp only [Pipeline.AddStage, Pipeline.GetStages] at hi ⊢
  exact List.getElem?_append_left hi

/-- Claim C5: after `SetStages L` the stages are exactly `L`, whatever the
pipeline held before: the result is the same from any other pipeline, and a
stage is in the result only if it is in `L`. -/
theorem SetStages_replaces (p : Pipeline Stage) (L : List Stage) :
    (p.SetStages L).GetStages = L ∧
    (∀ q : Pipeline Stage, (q.SetStages L).GetStages = (p.SetStages L).GetStages) ∧
    (∀ x, x ∈ (p.SetStages L).GetStages ↔ x ∈ L) ∧
    ((p.SetStages []).GetStages = []) :=
  ⟨rfl, fun _ => rfl, fun _ => Iff.rfl, rfl⟩

/-- Claim C6: `Pause`, `Unpause` and `ReleaseLock` each invoke the post
operation of the transport once, with a request whose path is `pipelines/`,
the name, and `/pause`, `/unpause` or `/releaseLock`, and whose headers are the
single entry `Confirm` = `true`. -/
theorem actions_post_confirmed_request (responseTypeJSON : String)
    (pgs : PipelinesService Stage Ctx σ) (ctx : Ctx) (name : String) (s : σ)
    (log : List (Call Stage)) :
    (∃ req : APIClientRequest Stage .none,
      (pgs.traced.Pause responseTypeJSON ctx name (s, log)).2.2 = log ++ [⟨.POST, .none, req⟩] ∧
      req.Path = "pipelines/" ++ name ++ "/pause" ∧ req.Headers = [("Confirm", "true")]) ∧
    (∃ req : APIClientRequest Stage .none,
      (pgs.traced.Unpause responseTypeJSON ctx name (s, log)).2.2 = log ++ [⟨.POST, .none, req⟩] ∧
      req.Path = "pipelines/" ++ name ++ "/unpause" ∧ req.Headers = [("Confirm", "true")]) ∧
    (∃ req : APIClientRequest Stage .none,
      (pgs.traced.ReleaseLock responseTypeJSON ctx name (s, log)).2.2 =
        log ++ [⟨.POST, .none, req⟩] ∧
      req.Path = "pipelines/" ++ name ++ "/releaseLock" ∧ req.Headers = [("Confirm", "true")]) := by
  have key : ∀ action : String,
      (pgs.traced.pipelineAction responseTypeJSON ctx name action (s, log)).2.2 =
        log ++ [⟨.POST, .none,
          { Path := "pipelines/" ++ name ++ "/" ++ action, ResponseType := responseTypeJSON,
            Headers := [("Confirm", "true")], ResponseBody := () }⟩] := by
    intro action
    simp only [PipelinesService.pipelineAction, PipelinesService.traced, Client.traced,
      Sprintf_pipelines_s_s]
    split
    · rfl
    · split <;> rfl
  refine ⟨⟨_, key "pause", ?_, rfl⟩, ⟨_, key "unpause", ?_, rfl⟩, ⟨_, key "releaseLock", ?_, rfl⟩⟩
  · show "pipelines/" ++ name ++ "/" ++ "pause" = "pipelines/" ++ name ++ "/pause"
    rw [String.append_assoc]; rfl
  · show "pipelines/" ++ name ++ "/" ++ "unpause" = "pipelines/" ++ name ++ "/unpause"
    rw [String.append_assoc]; rfl
  · show "pipelines/" ++ name ++ "/" ++ "releaseLock" = "pipelines/" ++ name ++ "/releaseLock"
    rw [String.append_assoc]; rfl

/-- Claim C7: `GetHistory` invokes the get operation once with the path
`buildPaginatedStub` gives for the history template, `GetInstance` with the
one for the instance template; for `build-pipeline` and offset 10 the history
path is `pipelines/build-pipeline/history/10`. -/
theorem history_and_instance_request_paths (pgs : PipelinesService Stage Ctx σ) (ctx : Ctx)
    (name : String) (offset : Int) (s : σ) (log : List (Call Stage)) :
    (∃ req : APIClientRequest Stage .pipelineHistory,
      (pgs.traced.GetHistory ctx name offset (s, log)).2.2 =
        log ++ [⟨.GET, .pipelineHistory, req⟩] ∧
      req.Path = buildPaginatedStub "pipelines/%s/history" name offset) ∧
    (∃ req : APIClientRequest Stage .pipelineInstance,
      (pgs.traced.GetInstance ctx name offset (s, log)).2.2 =
        log ++ [⟨.GET, .pipelineInstance, req⟩] ∧
      req.Path = buildPaginatedStub "admin/pipelines/%s/instance" name offset) ∧
    (∃ req : APIClientRequest Stage .pipelineHistory,
      (pgs.traced.GetHistory ctx "build-pipeline" 10 (s, log)).2.2 =
        log ++ [⟨.GET, .pipelineHistory, req⟩] ∧
      req.Path = "pipelines/build-pipeline/history/10") :=
  ⟨⟨_, rfl, rfl⟩, ⟨_, rfl, rfl⟩, ⟨_, rfl, buildPaginatedStub_history_page⟩⟩

/-- Claim C8: evaluation of `pipelineAction` on a transport failure that comes
with no response metadata (a nil response pointer and a connection error): the
read of `resp.HTTP.StatusCode` faults after the call, so no boolean, response
or error is returned. -/
theorem pipelineAction_faults_without_response :
    (⟨constClient Nat none (some ⟨"dial tcp 127.0.0.1:8153: connect: connection refused"⟩)⟩ :
      PipelinesService Nat Unit Nat).pipelineAction "json" () "build-pipeline" "pause" 0 =
      (.error .nilPointerDereference, 1) := by
  rfl

/-- Claim C9: `GetStatus`, `Create`, `GetInstance` and `GetHistory` each invoke
the transport exactly once and return the response metadata and the error of
that invocation unchanged, together with the content the invocation left in the
result variable and the state it left. -/
theorem reads_and_create_pass_outcome_through (apiV4 : String)
    (pgs : PipelinesService Stage Ctx σ) (ctx : Ctx) (name : String) (offset : Int)
    (p : Option (Pipeline Stage)) (group : String) (s : σ) (log : List (Call Stage)) :
    (∃ req : APIClientRequest Stage .pipelineStatus,
      (pgs.traced.GetStatus ctx name offset (s, log)).2.2 =
        log ++ [⟨.GET, .pipelineStatus, req⟩] ∧
      (pgs.GetStatus ctx name offset s).1.resp =
        (pgs.client.getAction ctx .pipelineStatus req s).1.resp ∧
      (pgs.GetStatus ctx name offset s).1.err =
        (pgs.client.getAction ctx .pipelineStatus req s).1.err ∧
      (pgs.GetStatus ctx name offset s).2 = (pgs.client.getAction ctx .pipelineStatus req s).2 ∧
      (pgs.traced.GetStatus ctx name offset (s, log)).1 = (pgs.GetStatus ctx name offset s).1) ∧
    (∃ req : APIClientRequest Stage .pipeline,
      (pgs.traced.Create apiV4 ctx p group (s, log)).2.2 = log ++ [⟨.POST, .pipeline, req⟩] ∧
      (pgs.Create apiV4 ctx p group s).1.resp =
        (pgs.client.postAction ctx .pipeline req s).1.resp ∧
      (pgs.Create apiV4 ctx p group s).1.err =
        (pgs.client.postAction ctx .pipeline req s).1.err ∧
      (pgs.Create apiV4 ctx p group s).2 = (pgs.client.postAction ctx .pipeline req s).2 ∧
      (pgs.traced.Create apiV4 ctx p group (s, log)).1 = (pgs.Create apiV4 ctx p group s).1) ∧
    (∃ req : APIClientRequest Stage .pipelineInstance,
      (pgs.traced.GetInstance ctx name offset (s, log)).2.2 =
        log ++ [⟨.GET, .pipelineInstance, req⟩] ∧
      (pgs.GetInstance ctx name offset s).1.resp =
        (pgs.client.getAction ctx .pipelineInstance req s).1.resp ∧
      (pgs.GetInstance ctx name offset s).1.err =
        (pgs.client.getAction ctx .pipelineInstance req s).1.err ∧
      (pgs.GetInstance ctx name offset s).2 =
        (pgs.client.getAction ctx .pipelineInstance req s).2 ∧
      (pgs.traced.GetInstance ctx name offset (s, log)).1 =
        (pgs.GetInstance ctx name offset s).1) ∧
    (∃ req : APIClientRequest Stage .pipelineHistory,
      (pgs.traced.GetHistory ctx name offset (s, log)).2.2 =
        log ++ [⟨.GET, .pipelineHistory, req⟩] ∧
      (pgs.GetHistory ctx name offset s).1.resp =
        (pgs.client.getAction ctx .pipelineHistory req s).1.resp ∧
      (pgs.GetHistory ctx name offset s).1.err =
        (pgs.client.getAction ctx .pipelineHistory req s).1.err ∧
      (pgs.GetHistory ctx name offset s).2 =
        (pgs.client.getAction ctx .pipelineHistory req s).2 ∧
      (pgs.traced.GetHistory ctx name offset (s, log)).1 =
        (pgs.GetHistory ctx name offset s).1) :=
  ⟨⟨_, rfl, rfl, rfl, rfl, rfl⟩, ⟨_, rfl, rfl, rfl, rfl, rfl⟩, ⟨_, rfl, rfl, rfl, rfl, rfl⟩,
    ⟨_, rfl, rfl, rfl, rfl, rfl⟩⟩

/-- Claim C10: `Create` invokes the post operation once with the path
`admin/pipelines`, the API version `apiV4` and the envelope holding the group
and the caller's pipeline as request body, every other field of the request at
its zero value; the result variable handed over in `ResponseBody` is a fresh
zero-valued pipeline and not the input, and the pipeline returned is the
content the transport left in that variable: the zero-valued pipeline, whatever
the input, when the transport writes nothing, and the server's rendering when
the transport stores one. -/
theorem Create_posts_envelope (apiV4 : String) (pgs : PipelinesService Stage Ctx σ) (ctx : Ctx)
    (p : Option (Pipeline Stage)) (group : String) (s : σ) (log : List (Call Stage))
    (resp : Option APIResponse) (err : Option Error) (n : Nat) :
    (∃ req : APIClientRequest Stage .pipeline,
      (pgs.traced.Create apiV4 ctx p group (s, log)).2.2 = log ++ [⟨.POST, .pipeline, req⟩] ∧
      req.Path = "admin/pipelines" ∧ req.APIVersion = apiV4 ∧
      req.RequestBody = some { Group := group, Pipeline := p } ∧
      req.ResponseBody = ({} : Pipeline Stage) ∧
      req.ResponseType = "" ∧ req.Headers = [] ∧
      (pgs.Create apiV4 ctx p group s).1.value =
        (pgs.client.postAction ctx .pipeline req s).1.body) ∧
    ((⟨constClient Stage resp err⟩ : PipelinesService Stage Unit Nat).Create apiV4 ()
        p group n).1.value = ({} : Pipeline Stage) ∧
    ((⟨constClient Nat none none⟩ : PipelinesService Nat Unit Nat).Create "v4" ()
        (some { Name := "site" }) "web" 0).1.value ≠ { Name := "site" } ∧
    ((⟨versioningClient⟩ : PipelinesService Nat Unit Nat).Create "v4" ()
        (some { Name := "site" }) "web" 0).1.value = { Name := "site", Version := "1" } ∧
    ((⟨versioningClient⟩ : PipelinesService Nat Unit Nat).Create "v4" ()
        (some { Name := "site" }) "web" 0).1.value ≠ { Name := "site" } :=
  ⟨⟨_, rfl, rfl, rfl, rfl, rfl, rfl, rfl, rfl⟩, rfl, by decide, by decide, by decide⟩

end Claims

end gocd
